import Mathlib

/-!
Shallow embedding of the conversation store and streaming relay of `src/app.py`
(a single-endpoint Flask service that proxies prompts to a chat model, keeps a
per-conversation message history in memory, and relays the model's streamed
output after stripping markdown code-fence markers).

Python's `str.replace(old, new)` with `new = ""` removes the leftmost,
non-overlapping occurrences of `old` in a single left-to-right pass over the
original string; `removeAll` below mirrors that. The model client's streamed
fragment sequence is represented by a `StreamScript`: the fragments produced,
plus a flag saying whether production completed or raised mid-stream.
-/

namespace AgentApp

/-- Roles of chat messages (`SystemMessage`, `HumanMessage`, `AIMessage`). -/
inductive Role where
  | system
  | human
  | ai
deriving DecidableEq

/-- A chat message: a role together with its text content. -/
structure Message where
  role : Role
  content : String
deriving DecidableEq

/-- Does `pat` occur at the very start of `s`? (Python `s.startswith(pat)`.) -/
def startsWith : List Char → List Char → Bool
  | [], _ => true
  | _ :: _, [] => false
  | p :: ps, c :: cs => p == c && startsWith ps cs

/-- Does `pat` occur anywhere in `s`? (Python `pat in s`.) -/
def hasOccurrence (pat : List Char) : List Char → Bool
  | [] => pat.isEmpty
  | c :: cs => startsWith pat (c :: cs) || hasOccurrence pat cs

/-- Worker for `removeAll`: scans left to right; on a match of `pat` it skips
the matched characters and continues, otherwise it keeps the head character.
The fuel counter is always at least the length of the remaining input, so the
`0` arm is never reached from `removeAll` and the scan is exactly one
left-to-right pass. Structural recursion on the fuel keeps the function
kernel-reducible. -/
def removeAllAux (pat : List Char) : Nat → List Char → List Char
  | _, [] => []
  | 0, s => s
  | fuel + 1, c :: cs =>
    if startsWith pat (c :: cs) then removeAllAux pat fuel (cs.drop (pat.length - 1))
    else c :: removeAllAux pat fuel cs

/-- Remove all leftmost non-overlapping occurrences of `pat` from `s`, in one
left-to-right pass over `s` (Python `s.replace(pat, "")` for nonempty `pat`). -/
def removeAll (pat : List Char) (s : List Char) : List Char :=
  removeAllAux pat s.length s

/-- Per-fragment cleaning, line 75 of `app.py`:
`content.replace("```json", "").replace("```", "")`. -/
def clean_chunk (s : String) : String :=
  String.mk (removeAll ("```".toList) (removeAll ("```json".toList) s.toList))

/-- String-level occurrence test. -/
def hasOccurrenceS (pat s : String) : Bool :=
  hasOccurrence pat.toList s.toList

/-- The fixed instruction prompt (`system_prompt_text`, lines 28-50 of `app.py`). -/
def system_prompt_text : String :=
"\nYou are an expert n8n workflow developer. Your sole purpose is to generate or modify the JSON code for an n8n workflow based on a user's request.\nAnalyze the user's request, your previous responses, and the examples below. Your output MUST match the exact JSON structure of the examples, especially for branching logic and chained connections.\n\n**RULES:**\n1.  Your final response must be ONLY the raw JSON object, starting with `\x7b` and ending with `\x7d`. Do not include \"```json\" or any other text.\n2.  The `connections` object is critical. The IF node has two outputs. The first (index 0) is for TRUE, the second (index 1) is for FALSE.\n3.  Chain multiple steps correctly. A node connects to B, then B connects to C. Do not connect A to both B and C from the same output.\n\n--- EXAMPLE 1: SIMPLE WORKFLOW ---\nUSER REQUEST: \"When a webhook gets a POST request, add the incoming data as a new row in Google Sheets.\"\nCORRECT JSON OUTPUT:\n\x7b \"name\": \"Webhook to Sheets\", \"nodes\": [ \x7b \"parameters\": \x7b\x7d, \"name\": \"Start\", \"type\": \"n8n-nodes-base.start\", \"typeVersion\": 1, \"position\": [ 250, 300 ] \x7d, \x7b \"parameters\": \x7b \"path\": \"webhook-test\" \x7d, \"name\": \"Webhook\", \"type\": \"n8n-nodes-base.webhook\", \"typeVersion\": 1, \"position\": [ 400, 300 ] \x7d, \x7b \"parameters\": \x7b \"sheetId\": \"\x7b\x7b $credentials.googleSheet.sheetId \x7d\x7d\", \"range\": \"A:A\" \x7d, \"name\": \"Google Sheets\", \"type\": \"n8n-nodes-base.googleSheets\", \"typeVersion\": 4, \"position\": [ 600, 300 ] \x7d ], \"connections\": \x7b \"Webhook\": \x7b \"main\": [ [ \x7b \"node\": \"Google Sheets\", \"type\": \"main\", \"index\": 0 \x7d ] ] \x7d \x7d \x7d\n--- EXAMPLE 1 END ---\n\n--- EXAMPLE 2: NEW AND CORRECT COMPLEX WORKFLOW ---\nUSER REQUEST: \"When a new form is submitted on our website, check if the customer's message contains 'urgent'. If it does, create a high-priority Asana task, then send a Slack notification to #support-leads, and finally send an email to the customer using Gmail. If not, add the customer's information to a Google Sheet, and then send a welcome email to the customer using Sendinblue.\"\nCORRECT JSON OUTPUT:\n\x7b \"name\": \"New Customer Inquiry\", \"nodes\": [ \x7b \"parameters\": \x7b\x7d, \"name\": \"Start\", \"type\": \"n8n-nodes-base.start\", \"typeVersion\": 1, \"position\": [ 250, 300 ] \x7d, \x7b \"parameters\": \x7b \"path\": \"customer-inquiry\" \x7d, \"name\": \"Webhook\", \"type\": \"n8n-nodes-base.webhook\", \"typeVersion\": 1, \"position\": [ 400, 300 ] \x7d, \x7b \"parameters\": \x7b \"conditions\": \x7b \"boolean\": [ \x7b \"value1\": \"\x7b\x7b$json.body.message\x7d\x7d\", \"operation\": \"contains\", \"value2\": \"urgent\" \x7d ] \x7d \x7d, \"name\": \"IF - Is it urgent?\", \"type\": \"n8n-nodes-base.if\", \"typeVersion\": 1, \"position\": [ 620, 300 ] \x7d, \x7b \"parameters\": \x7b \"projectId\": \"\x7b\x7b $credentials.asana.projectId \x7d\x7d\", \"name\": \"New Urgent Lead: \x7b\x7b $json.body.name \x7d\x7d\" \x7d, \"name\": \"Create Asana Task\", \"type\": \"n8n-nodes-base.asana\", \"typeVersion\": 1, \"position\": [ 840, 200 ] \x7d, \x7b \"parameters\": \x7b \"channel\": \"#support-leads\", \"text\": \"🔥 New URGENT inquiry from \x7b\x7b $json.body.name \x7d\x7d!\" \x7d, \"name\": \"Send Slack Alert\", \"type\": \"n8n-nodes-base.slack\", \"typeVersion\": 1, \"position\": [ 1060, 200 ] \x7d, \x7b \"parameters\": \x7b \"to\": \"\x7b\x7b $json.body.email \x7d\x7d\", \"subject\": \"Re: Your Urgent Inquiry\", \"text\": \"We have received your urgent request and will be in touch shortly.\" \x7d, \"name\": \"Send Gmail Confirmation\", \"type\": \"n8n-nodes-base.gmail\", \"typeVersion\": 1, \"position\": [ 1280, 200 ] \x7d, \x7b \"parameters\": \x7b \"sheetId\": \"\x7b\x7b $credentials.googleSheets.sheetId \x7d\x7d\", \"range\": \"Leads!A:C\", \"values\": \x7b \"values\": [ [ \"\x7b\x7b $json.body.name \x7d\x7d\", \"\x7b\x7b $json.body.email \x7d\x7d\", \"\x7b\x7b $json.body.message \x7d\x7d\" ] ] \x7d \x7d, \"name\": \"Add to Google Sheet\", \"type\": \"n8n-nodes-base.googleSheets\", \"typeVersion\": 4, \"position\": [ 840, 400 ] \x7d, \x7b \"parameters\": \x7b \"recipientEmail\": \"\x7b\x7b $json.body.email \x7d\x7d\", \"templateId\": 123 \x7d, \"name\": \"Send Welcome Email\", \"type\": \"n8n-nodes-base.sendinblue\", \"typeVersion\": 1, \"position\": [ 1060, 400 ] \x7d ], \"connections\": \x7b \"Webhook\": \x7b \"main\": [ [ \x7b \"node\": \"IF - Is it urgent?\", \"type\": \"main\", \"index\": 0 \x7d ] ] \x7d, \"IF - Is it urgent?\": \x7b \"main\": [ [ \x7b \"node\": \"Create Asana Task\", \"type\": \"main\", \"index\": 0 \x7d ], [ \x7b \"node\": \"Add to Google Sheet\", \"type\": \"main\", \"index\": 1 \x7d ] ] \x7d, \"Create Asana Task\": \x7b \"main\": [ [ \x7b \"node\": \"Send Slack Alert\", \"type\": \"main\", \"index\": 0 \x7d ] ] \x7d, \"Send Slack Alert\": \x7b \"main\": [ [ \x7b \"node\": \"Send Gmail Confirmation\", \"type\": \"main\", \"index\": 0 \x7d ] ] \x7d, \"Add to Google Sheet\": \x7b \"main\": [ [ \x7b \"node\": \"Send Welcome Email\", \"type\": \"main\", \"index\": 0 \x7d ] ] \x7d \x7d \x7d\n--- EXAMPLE 2 END ---\n\nNow, generate or modify the JSON for the new user request based on the conversation so far.\n"

/-- `system_message = SystemMessage(content=system_prompt_text)` (line 52). -/
def system_message : Message :=
  Message.mk Role.system system_prompt_text

/-- The in-memory `chat_histories` dict, as an association list keyed by
conversation identifier. -/
abbrev Store := List (String × List Message)

/-- Dictionary lookup `chat_histories.get(cid)`. -/
def chatGet : Store → String → Option (List Message)
  | [], _ => none
  | (k, v) :: rest, cid => if k = cid then some v else chatGet rest cid

/-- Dictionary update `chat_histories[cid] = h` (replace if present, else add). -/
def chatSet : Store → String → List Message → Store
  | [], cid, h => [(cid, h)]
  | (k, v) :: rest, cid, h =>
    if k = cid then (cid, h) :: rest else (k, v) :: chatSet rest cid h

/-- The JSON request body: `prompt` (required) and `conversation_id` (optional). -/
structure RequestBody where
  prompt : Option String
  conversation_id : Option String

/-- The model client's behaviour for one request: the fragments it produces, and
whether production ran to completion (`ok = true`) or raised after producing
exactly `frags` (`ok = false`). -/
structure StreamScript where
  frags : List String
  ok : Bool

/-- `json.dumps({"error": "Failed to stream response from AI."})` (line 82). -/
def ERROR_STREAM_JSON : String :=
  "\x7b\"error\": \"Failed to stream response from AI.\"\x7d"

/-- The body of `jsonify({"error": "Prompt is required"})` (line 62). -/
def PROMPT_REQUIRED_JSON : String :=
  "\x7b\"error\": \"Prompt is required\"\x7d"

/-- Python truthiness test `not user_prompt` on `data.get("prompt")`: true when
the field is absent or the empty string. -/
def promptMissing : Option String → Bool
  | none => true
  | some s => s.isEmpty

/-- `conversation_id = data.get("conversation_id") or str(uuid.uuid4())`
(line 59): the supplied identifier when present and truthy, else a fresh one. -/
def usedId (body : RequestBody) (freshId : String) : String :=
  match body.conversation_id with
  | some s => if s.isEmpty then freshId else s
  | none => freshId

/-- Lines 64-65: `if conversation_id not in chat_histories:
chat_histories[conversation_id] = [system_message]`. -/
def seedHistories (histories : Store) (cid : String) : Store :=
  if (chatGet histories cid).isNone then chatSet histories cid [system_message]
  else histories

/-- Line 67: `chat_histories[conversation_id].append(HumanMessage(content=user_prompt))`
(the key is always present here, having just been seeded). -/
def appendHuman (histories : Store) (cid p : String) : Store :=
  match chatGet histories cid with
  | some h => chatSet histories cid (h ++ [Message.mk Role.human p])
  | none => histories

/-- The `stream_response` generator (lines 70-82): yields the cleaned fragments
in arrival order; if the script completes, appends one AI message holding the
accumulated cleaned text to the history; if it raises (including the unreachable
missing-key case, whose `KeyError` the same `except` would catch), yields one
final error fragment and leaves the store untouched. Returns the fragment list
yielded and the store afterwards. -/
def stream_response (conversation_id : String) (histories : Store)
    (script : StreamScript) : List String × Store :=
  let cleaned := script.frags.map clean_chunk
  let ai_full_response := String.join cleaned
  if script.ok then
    match chatGet histories conversation_id with
    | some h =>
      (cleaned,
        chatSet histories conversation_id (h ++ [Message.mk Role.ai ai_full_response]))
    | none => (cleaned ++ [ERROR_STREAM_JSON], histories)
  else
    (cleaned ++ [ERROR_STREAM_JSON], histories)

/-- Outcome of one request to the endpooint: either the 400 validation reply, or
a streamed reply carrying the `X-Conversation-Id` header value, the message
history handed to the model, the fragment bodies yielded, and the store after
the stream is drained. Both variants record the resulting store. -/
inductive HandlerResult where
  | badRequest (body : String) (status : Nat) (histories : Store)
  | streamed (conversationId : String) (messagesSent : List Message)
      (body : List String) (histories : Store) (status : Nat)
deriving DecidableEq

/-- The conversation store after the request has been fully handled. -/
def HandlerResult.store : HandlerResult → Store
  | .badRequest _ _ st => st
  | .streamed _ _ _ st _ => st

/-- The message history handed to `llm.stream` (empty for a validation error). -/
def HandlerResult.sentMessages : HandlerResult → List Message
  | .badRequest _ _ _ => []
  | .streamed _ msgs _ _ _ => msgs

/-- The `generate_workflow_stream` handler (lines 56-86): validates the prompt,
seeds or reuses the history for the conversation identifier, appends the human
message, hands the history to the model, streams, and wraps up the response. -/
def generate_workflow_stream (histories : Store) (body : RequestBody)
    (freshId : String) (script : StreamScript) : HandlerResult :=
  let conversation_id := usedId body freshId
  if promptMissing body.prompt then
    HandlerResult.badRequest PROMPT_REQUIRED_JSON 400 histories
  else
    let p := body.prompt.getD ""
    let histories2 := appendHuman (seedHistories histories conversation_id) conversation_id p
    let messages_to_send := (chatGet histories2 conversation_id).getD []
    let r := stream_response conversation_id histories2 script
    HandlerResult.streamed conversation_id messages_to_send r.1 r.2 200

/-- Run a sequence of requests against the store, threading it through; each
event is a request body, the fresh identifier `uuid.uuid4()` would mint, and
the model client's behaviour. -/
def runRequests (histories : Store) : List (RequestBody × String × StreamScript) → Store
  | [] => histories
  | e :: rest => runRequests (generate_workflow_stream histories e.1 e.2.1 e.2.2).store rest

/-- A well-formed conversation history: it begins with the seeded system
message and no later message carries the system role. -/
def goodHistory (h : List Message) : Prop :=
  ∃ rest, h = system_message :: rest ∧ ∀ m ∈ rest, m.role ≠ Role.system

/-- The history that the request will extend: the stored one when the
identifier is known, the freshly seeded `[system_message]` otherwise. -/
def priorHistory (histories : Store) (cid : String) : List Message :=
  (chatGet histories cid).getD [system_message]

/-- The fragments of the HTTP response body: the validation error body, or the
fragments the stream yielded. -/
def HandlerResult.respBody : HandlerResult → List String
  | .badRequest b _ _ => [b]
  | .streamed _ _ out _ _ => out

/-! ### Lemmas about the fence-stripping pass -/

theorem removeAllAux_nil (pat : List Char) (fuel : Nat) :
    removeAllAux pat fuel [] = [] := by
  cases fuel <;> rfl

theorem removeAllAux_eq_self (pat : List Char) :
    ∀ (fuel : Nat) (s : List Char), s.length ≤ fuel → hasOccurrence pat s = false →
      removeAllAux pat fuel s = s := by
  intro fuel
  induction fuel with
  | zero =>
    intro s hs _
    cases s with
    | nil => rfl
    | cons c cs => simp at hs
  | succ f ih =>
    intro s hs hocc
    cases s with
    | nil => rfl
    | cons c cs =>
      have hocc' : startsWith pat (c :: cs) = false ∧ hasOccurrence pat cs = false := by
        simpa [hasOccurrence, Bool.or_eq_false_iff] using hocc
      have hlen : cs.length ≤ f := by simp at hs; omega
      simp [removeAllAux, hocc'.1, ih cs hlen hocc'.2]

theorem removeAll_eq_self (pat s : List Char) (h : hasOccurrence pat s = false) :
    removeAll pat s = s :=
  removeAllAux_eq_self pat s.length s (Nat.le_refl _) h

theorem startsWith_append_left (p q : List Char) :
    ∀ s : List Char, startsWith (p ++ q) s = true → startsWith p s = true := by
  induction p with
  | nil => intro s _; rfl
  | cons a p' ih =>
    intro s h
    cases s with
    | nil => simp [startsWith] at h
    | cons c cs =>
      simp only [List.cons_append, startsWith, Bool.and_eq_true] at h ⊢
      exact ⟨h.1, ih cs h.2⟩

theorem hasOccurrence_append_left (p q : List Char) :
    ∀ s : List Char, hasOccurrence (p ++ q) s = true → hasOccurrence p s = true := by
  intro s
  induction s with
  | nil =>
    intro h
    simp only [hasOccurrence, List.isEmpty_iff, List.append_eq_nil] at h ⊢
    exact h.1
  | cons c cs ih =>
    intro h
    rw [hasOccurrence, Bool.or_eq_true] at h ⊢
    rcases h with h | h
    · exact Or.inl (startsWith_append_left p q _ h)
    · exact Or.inr (ih h)

theorem removeAllAux_headOne (t : Char) (fuel : Nat) (s : List Char)
    (h : startsWith [t] s = false) :
    startsWith [t] (removeAllAux [t, t, t] fuel s) = false := by
  cases s with
  | nil => simp [removeAllAux_nil, startsWith]
  | cons e cs =>
    have he : (t == e) = false := by simpa [startsWith] using h
    cases fuel with
    | zero => simpa [removeAllAux] using h
    | succ f =>
      have hsw : startsWith [t, t, t] (e :: cs) = false := by simp [startsWith, he]
      simp [removeAllAux, hsw, startsWith, he]

theorem removeAllAux_headTwo (t : Char) (fuel : Nat) (s : List Char)
    (h : startsWith [t, t] s = false) :
    startsWith [t, t] (removeAllAux [t, t, t] fuel s) = false := by
  cases s with
  | nil => simp [removeAllAux_nil, startsWith]
  | cons d cs =>
    cases fuel with
    | zero => simpa [removeAllAux] using h
    | succ f =>
      by_cases hd : (t == d) = true
      · have hd' : t = d := beq_iff_eq.mp hd
        subst hd'
        replace h : startsWith [t] cs = false := by simpa [startsWith] using h
        have hcs2 : startsWith [t, t] cs = false := by
          cases cs with
          | nil => rfl
          | cons e cs' =>
            have he : (t == e) = false := by simpa [startsWith] using h
            simp [startsWith, he]
        have hsw : startsWith [t, t, t] (t :: cs) = false := by
          simp [startsWith, hcs2]
        have h1 := removeAllAux_headOne t f cs h
        simp [removeAllAux, hsw, hcs2, startsWith, h1]
      · have hd' : (t == d) = false := eq_false_of_ne_true hd
        have hsw : startsWith [t, t, t] (d :: cs) = false := by simp [startsWith, hd']
        simp [removeAllAux, hsw, startsWith, hd']

theorem removeAllAux_triple_no_occ (t : Char) :
    ∀ (fuel : Nat) (s : List Char), s.length ≤ fuel →
      hasOccurrence [t, t, t] (removeAllAux [t, t, t] fuel s) = false := by
  intro fuel
  induction fuel with
  | zero =>
    intro s hs
    cases s with
    | nil => simp [removeAllAux_nil, hasOccurrence]
    | cons c cs => simp at hs
  | succ f ih =>
    intro s hs
    cases s with
    | nil => simp [removeAllAux_nil, hasOccurrence]
    | cons c cs =>
      have hlen : cs.length ≤ f := by simp at hs; omega
      by_cases hp : startsWith [t, t, t] (c :: cs) = true
      · have hstep : removeAllAux [t, t, t] (f + 1) (c :: cs) =
            removeAllAux [t, t, t] f (cs.drop 2) := by
          simp [removeAllAux, hp]
        rw [hstep]
        exact ih (cs.drop 2) (by simp [List.length_drop]; omega)
      · have hp' : startsWith [t, t, t] (c :: cs) = false := eq_false_of_ne_true hp
        have hrec := ih cs hlen
        have hstep : removeAllAux [t, t, t] (f + 1) (c :: cs) =
            c :: removeAllAux [t, t, t] f cs := by
          simp [removeAllAux, hp']
        rw [hstep, hasOccurrence]
        by_cases hc : (t == c) = true
        · have hct : t = c := beq_iff_eq.mp hc
          subst hct
          replace hp' : startsWith [t, t] cs = false := by simpa [startsWith] using hp'
          have h2 := removeAllAux_headTwo t f cs hp'
          simp [startsWith, h2, hrec]
        · have hc' : (t == c) = false := eq_false_of_ne_true hc
          simp [startsWith, hc', hrec]

theorem removeAll_triple_no_occ (t : Char) (s : List Char) :
    hasOccurrence [t, t, t] (removeAll [t, t, t] s) = false :=
  removeAllAux_triple_no_occ t s.length s (Nat.le_refl _)

theorem clean_chunk_toList (s : String) :
    (clean_chunk s).toList =
      removeAll ("```".toList) (removeAll ("```json".toList) s.toList) := rfl

theorem tick_toList :
    "```".toList = [Char.ofNat 96, Char.ofNat 96, Char.ofNat 96] := by decide

theorem tickjson_toList : "```json".toList = "```".toList ++ "json".toList := by decide

/-- The cleaned form of any single fragment contains neither fence marker. -/
theorem clean_chunk_no_marker (s : String) :
    hasOccurrenceS "```" (clean_chunk s) = false ∧
      hasOccurrenceS "```json" (clean_chunk s) = false := by
  have h3 : hasOccurrence ("```".toList) ((clean_chunk s).toList) = false := by
    rw [clean_chunk_toList, tick_toList]
    exact removeAll_triple_no_occ _ _
  refine ⟨h3, ?_⟩
  show hasOccurrence ("```json".toList) ((clean_chunk s).toList) = false
  cases hcase : hasOccurrence ("```json".toList) ((clean_chunk s).toList) with
  | false => rfl
  | true =>
    exfalso
    have hmono := hasOccurrence_append_left ("```".toList) ("json".toList)
      ((clean_chunk s).toList) (by rw [← tickjson_toList]; exact hcase)
    rw [h3] at hmono
    exact Bool.false_ne_true hmono

/-! ### Lemmas about the conversation store and the handler -/

theorem chatGet_chatSet_self (st : Store) (cid : String) (v : List Message) :
    chatGet (chatSet st cid v) cid = some v := by
  induction st with
  | nil => simp [chatSet, chatGet]
  | cons kv rest ih =>
    obtain ⟨k, w⟩ := kv
    by_cases hk : k = cid
    · subst hk; simp [chatSet, chatGet]
    · simp [chatSet, chatGet, hk, ih]

theorem chatGet_chatSet_ne (st : Store) (cid : String) (v : List Message) (cid' : String)
    (h : cid' ≠ cid) : chatGet (chatSet st cid v) cid' = chatGet st cid' := by
  induction st with
  | nil => simp [chatSet, chatGet, Ne.symm h]
  | cons kv rest ih =>
    obtain ⟨k, w⟩ := kv
    by_cases hk : k = cid
    · subst hk; simp [chatSet, chatGet, Ne.symm h]
    · by_cases hkc : k = cid' <;> simp [chatSet, chatGet, hk, hkc, h, ih]

theorem chatGet_seedHistories (histories : Store) (cid : String) :
    chatGet (seedHistories histories cid) cid = some (priorHistory histories cid) := by
  cases h : chatGet histories cid with
  | none => simp [seedHistories, priorHistory, h, chatGet_chatSet_self]
  | some hh => simp [seedHistories, priorHistory, h]

theorem appendHuman_eq_chatSet (histories : Store) (cid p : String) (hh : List Message)
    (h : chatGet histories cid = some hh) :
    appendHuman histories cid p = chatSet histories cid (hh ++ [Message.mk Role.human p]) := by
  simp [appendHuman, h]

/-- After seeding and the human append, the identified history is the prior
history with the new human message at the end. -/
theorem chatGet_after_human (histories : Store) (cid p : String) :
    chatGet (appendHuman (seedHistories histories cid) cid p) cid =
      some (priorHistory histories cid ++ [Message.mk Role.human p]) := by
  rw [appendHuman_eq_chatSet _ _ _ _ (chatGet_seedHistories histories cid)]
  exact chatGet_chatSet_self _ _ _

theorem stream_response_fail (cid : String) (histories : Store) (script : StreamScript)
    (h : script.ok = false) :
    stream_response cid histories script =
      (script.frags.map clean_chunk ++ [ERROR_STREAM_JSON], histories) := by
  simp [stream_response, h]

theorem stream_response_ok (cid : String) (histories : Store) (script : StreamScript)
    (hh : List Message) (hok : script.ok = true) (hget : chatGet histories cid = some hh) :
    stream_response cid histories script =
      (script.frags.map clean_chunk,
        chatSet histories cid
          (hh ++ [Message.mk Role.ai (String.join (script.frags.map clean_chunk))])) := by
  simp [stream_response, hok, hget]

theorem promptMissing_false (p : String) (hp : p ≠ "") : promptMissing (some p) = false := by
  cases he : p.isEmpty
  · simp [promptMissing, he]
  · exact absurd ((String.isEmpty_iff p).mp he) hp

/-- Unfolding of the handler for a request with a usable prompt. -/
theorem generate_unfold (histories : Store) (body : RequestBody) (freshId : String)
    (script : StreamScript) (p : String) (hp : body.prompt = some p) (hpne : p ≠ "") :
    generate_workflow_stream histories body freshId script =
      HandlerResult.streamed (usedId body freshId)
        (priorHistory histories (usedId body freshId) ++ [Message.mk Role.human p])
        (stream_response (usedId body freshId)
          (appendHuman (seedHistories histories (usedId body freshId)) (usedId body freshId) p)
          script).1
        (stream_response (usedId body freshId)
          (appendHuman (seedHistories histories (usedId body freshId)) (usedId body freshId) p)
          script).2
        200 := by
  rw [generate_workflow_stream]
  rw [hp]
  simp only [promptMissing_false p hpne, if_false, Bool.false_eq_true, Option.getD_some]
  rw [chatGet_after_human]
  rfl

/-! ### The system-seed invariant -/

theorem goodHistory_seeded : goodHistory [system_message] :=
  ⟨[], rfl, by intro m hm; simp at hm⟩

theorem goodHistory_append (h : List Message) (m : Message) (hg : goodHistory h)
    (hm : m.role ≠ Role.system) : goodHistory (h ++ [m]) := by
  obtain ⟨rest, hrest, hall⟩ := hg
  refine ⟨rest ++ [m], by simp [hrest], ?_⟩
  intro x hx
  rcases List.mem_append.mp hx with hx | hx
  · exact hall x hx
  · simp at hx; subst hx; exact hm

theorem good_chatSet (st : Store) (cid : String) (v : List Message)
    (hst : ∀ c h, chatGet st c = some h → goodHistory h) (hv : goodHistory v) :
    ∀ c h, chatGet (chatSet st cid v) c = some h → goodHistory h := by
  intro c h hc
  rcases eq_or_ne c cid with rfl | hne
  · rw [chatGet_chatSet_self] at hc
    have hvh := Option.some.inj hc
    subst hvh
    exact hv
  · rw [chatGet_chatSet_ne st cid v c hne] at hc
    exact hst c h hc

theorem prompt_some_of_not_missing (b : RequestBody) (hp : promptMissing b.prompt = false) :
    ∃ p, b.prompt = some p ∧ p ≠ "" := by
  cases hbp : b.prompt with
  | none => rw [hbp] at hp; simp [promptMissing] at hp
  | some p =>
    refine ⟨p, rfl, ?_⟩
    intro hh
    subst hh
    rw [hbp] at hp
    simp [promptMissing, String.isEmpty] at hp

/-- One request preserves goodness of every stored history. -/
theorem good_step (histories : Store) (b : RequestBody) (f : String) (sc : StreamScript)
    (hst : ∀ c h, chatGet histories c = some h → goodHistory h) :
    ∀ c h, chatGet (generate_workflow_stream histories b f sc).store c = some h →
      goodHistory h := by
  cases hp : promptMissing b.prompt with
  | true => simpa [generate_workflow_stream, hp, HandlerResult.store] using hst
  | false =>
    obtain ⟨p, hbp, hpne⟩ := prompt_some_of_not_missing b hp
    have hstore : (generate_workflow_stream histories b f sc).store =
        (stream_response (usedId b f)
          (appendHuman (seedHistories histories (usedId b f)) (usedId b f) p) sc).2 := by
      rw [generate_unfold histories b f sc p hbp hpne]
      rfl
    rw [hstore]
    have hgood1 : ∀ c h, chatGet (seedHistories histories (usedId b f)) c = some h →
        goodHistory h := by
      cases hs : chatGet histories (usedId b f) with
      | some hh => simpa [seedHistories, hs] using hst
      | none =>
        simp only [seedHistories, hs, Option.isNone_none, if_true]
        exact good_chatSet _ _ _ hst goodHistory_seeded
    have hprior_good : goodHistory (priorHistory histories (usedId b f)) :=
      hgood1 _ _ (chatGet_seedHistories histories (usedId b f))
    have hhuman_good :
        goodHistory (priorHistory histories (usedId b f) ++ [Message.mk Role.human p]) :=
      goodHistory_append _ _ hprior_good (by intro hh; cases hh)
    have hgood2 : ∀ c h,
        chatGet (appendHuman (seedHistories histories (usedId b f)) (usedId b f) p) c =
          some h → goodHistory h := by
      rw [appendHuman_eq_chatSet _ _ _ _ (chatGet_seedHistories histories (usedId b f))]
      exact good_chatSet _ _ _ hgood1 hhuman_good
    cases hok : sc.ok with
    | false => rw [stream_response_fail _ _ _ hok]; exact hgood2
    | true =>
      rw [stream_response_ok _ _ sc _ hok (chatGet_after_human histories (usedId b f) p)]
      exact good_chatSet _ _ _ hgood2
        (goodHistory_append _ _ hhuman_good (by intro hh; cases hh))

theorem runRequests_good (events : List (RequestBody × String × StreamScript)) :
    ∀ histories : Store, (∀ c h, chatGet histories c = some h → goodHistory h) →
      ∀ c h, chatGet (runRequests histories events) c = some h → goodHistory h := by
  induction events with
  | nil => intro histories hst; simpa [runRequests] using hst
  | cons e rest ih =>
    intro histories hst
    rw [runRequests]
    exact ih _ (good_step histories e.1 e.2.1 e.2.2 hst)

/-- One request only ever appends to an existing history. -/
theorem step_extends (histories : Store) (b : RequestBody) (f : String) (sc : StreamScript)
    (cid : String) (h : List Message) (hget : chatGet histories cid = some h) :
    ∃ ext, chatGet (generate_workflow_stream histories b f sc).store cid = some (h ++ ext) := by
  cases hp : promptMissing b.prompt with
  | true => exact ⟨[], by simp [generate_workflow_stream, hp, HandlerResult.store, hget]⟩
  | false =>
    obtain ⟨p, hbp, hpne⟩ := prompt_some_of_not_missing b hp
    have hstore : (generate_workflow_stream histories b f sc).store =
        (stream_response (usedId b f)
          (appendHuman (seedHistories histories (usedId b f)) (usedId b f) p) sc).2 := by
      rw [generate_unfold histories b f sc p hbp hpne]
      rfl
    rcases eq_or_ne cid (usedId b f) with heq | hne
    · rw [← heq] at hstore
      have hseed : seedHistories histories cid = histories := by simp [seedHistories, hget]
      have happ : appendHuman (seedHistories histories cid) cid p =
          chatSet histories cid (h ++ [Message.mk Role.human p]) := by
        rw [hseed, appendHuman_eq_chatSet _ _ _ _ hget]
      cases hok : sc.ok with
      | false =>
        refine ⟨[Message.mk Role.human p], ?_⟩
        rw [hstore, happ, stream_response_fail _ _ _ hok]
        exact chatGet_chatSet_self _ _ _
      | true =>
        refine ⟨[Message.mk Role.human p,
          Message.mk Role.ai (String.join (sc.frags.map clean_chunk))], ?_⟩
        rw [hstore, happ,
          stream_response_ok cid _ sc (h ++ [Message.mk Role.human p]) hok
            (chatGet_chatSet_self _ _ _)]
        rw [chatGet_chatSet_self]
        simp
    · refine ⟨[], ?_⟩
      rw [hstore]
      have h1 : chatGet (seedHistories histories (usedId b f)) cid = some h := by
        cases hs : chatGet histories (usedId b f) with
        | some hh => simpa [seedHistories, hs] using hget
        | none =>
          simp only [seedHistories, hs, Option.isNone_none, if_true]
          rw [chatGet_chatSet_ne _ _ _ _ hne]
          exact hget
      have h2 : chatGet
          (appendHuman (seedHistories histories (usedId b f)) (usedId b f) p) cid = some h := by
        rw [appendHuman_eq_chatSet _ _ _ _ (chatGet_seedHistories histories (usedId b f)),
          chatGet_chatSet_ne _ _ _ _ hne]
        exact h1
      cases hok : sc.ok with
      | false => rw [stream_response_fail _ _ _ hok]; simpa using h2
      | true =>
        rw [stream_response_ok _ _ sc _ hok (chatGet_after_human histories (usedId b f) p)]
        rw [chatGet_chatSet_ne _ _ _ _ hne]
        simpa using h2

theorem isEmpty_false_of_ne (s : String) (h : s ≠ "") : s.isEmpty = false := by
  cases he : s.isEmpty
  · rfl
  · exact absurd ((String.isEmpty_iff s).mp he) h

/-! ### The claims -/

/-- C10: for every input string, the per-fragment stripping rule (remove all
occurrences of the JSON fence marker, then all occurrences of the bare fence
marker) yields a string containing no occurrence of the bare marker and hence
none of the JSON marker. -/
theorem cleaned_fragment_contains_no_fence_marker (s : String) :
    hasOccurrenceS "```" (clean_chunk s) = false ∧
      hasOccurrenceS "```json" (clean_chunk s) = false :=
  clean_chunk_no_marker s

/-- C3 counterexample: for the raw fragment sequence `["`", "``"]` the
concatenation of the per-fragment cleaning results — the streamed response body
of a successful request — is exactly the fence marker, so the body does contain
the literal substring of three backticks. -/
theorem streamed_body_fence_across_fragments_counterexample :
    String.join ((generate_workflow_stream []
        (RequestBody.mk (some "make a workflow") none) "id-1"
        (StreamScript.mk ["`", "``"] true)).respBody) = "```" ∧
      hasOccurrenceS "```"
        (String.join ((generate_workflow_stream []
          (RequestBody.mk (some "make a workflow") none) "id-1"
          (StreamScript.mk ["`", "``"] true)).respBody)) = true := by
  constructor
  · rfl
  · rfl

/-- C3 (amended): each individual per-fragment cleaning result contains no
occurrence of either fence marker; the full body is their concatenation, and a
marker can appear in it only when backtick runs from adjacent raw fragments
abut across a fragment boundary. -/
theorem each_cleaned_fragment_fence_free (frags : List String) :
    ((frags.map clean_chunk).all
      (fun g => !hasOccurrenceS "```json" g && !hasOccurrenceS "```" g)) = true := by
  rw [List.all_eq_true]
  intro g hg
  obtain ⟨s, _, rfl⟩ := List.mem_map.mp hg
  have h := clean_chunk_no_marker s
  simp [h.1, h.2]

/-- C7: a fragment containing no occurrence of either fence marker is returned
unchanged by the stripping rule, and a fragment equal to exactly one marker is
mapped to the empty string. -/
theorem fence_strip_noop_and_marker_cases (s : String)
    (h1 : hasOccurrenceS "```json" s = false) (h2 : hasOccurrenceS "```" s = false) :
    clean_chunk s = s ∧ clean_chunk "```json" = "" ∧ clean_chunk "```" = "" := by
  refine ⟨?_, by decide, by decide⟩
  have h1' : hasOccurrence ("```json".toList) s.toList = false := h1
  have h2' : hasOccurrence ("```".toList) s.toList = false := h2
  show String.mk (removeAll ("```".toList) (removeAll ("```json".toList) s.toList)) = s
  rw [removeAll_eq_self _ _ h1', removeAll_eq_self _ _ h2']
  obtain ⟨l⟩ := s
  rfl

theorem fence_strip_noop_and_marker_cases_witness :
    hasOccurrenceS "```json" "hello world" = false ∧
      hasOccurrenceS "```" "hello world" = false ∧
      (clean_chunk "hello world" = "hello world" ∧
        clean_chunk "```json" = "" ∧ clean_chunk "```" = "") :=
  ⟨by decide, by decide,
    fence_strip_noop_and_marker_cases "hello world" (by decide) (by decide)⟩

/-- C4: a request whose body lacks the prompt field receives the structured
validation error with status 400 and leaves the conversation store exactly as
it was. -/
theorem missing_prompt_validation_error (histories : Store) (body : RequestBody)
    (freshId : String) (script : StreamScript) (hp : body.prompt = none) :
    generate_workflow_stream histories body freshId script =
      HandlerResult.badRequest PROMPT_REQUIRED_JSON 400 histories ∧
      (generate_workflow_stream histories body freshId script).store = histories := by
  have h : generate_workflow_stream histories body freshId script =
      HandlerResult.badRequest PROMPT_REQUIRED_JSON 400 histories := by
    simp [generate_workflow_stream, hp, promptMissing]
  exact ⟨h, by rw [h]; rfl⟩

theorem missing_prompt_validation_error_witness :
    (RequestBody.mk none (some "abc")).prompt = none ∧
      (generate_workflow_stream [] (RequestBody.mk none (some "abc")) "id-1"
          (StreamScript.mk [] true) =
        HandlerResult.badRequest PROMPT_REQUIRED_JSON 400 [] ∧
        (generate_workflow_stream [] (RequestBody.mk none (some "abc")) "id-1"
          (StreamScript.mk [] true)).store = []) :=
  ⟨rfl, missing_prompt_validation_error [] (RequestBody.mk none (some "abc")) "id-1"
    (StreamScript.mk [] true) rfl⟩

/-- C9: a request whose prompt field is present but equal to the empty string
is treated exactly like a request lacking the field: same validation error,
same untouched store, and the same handler result as the promptless request. -/
theorem empty_prompt_treated_as_missing (histories : Store) (body : RequestBody)
    (freshId : String) (script : StreamScript) (hp : body.prompt = some "") :
    generate_workflow_stream histories body freshId script =
      HandlerResult.badRequest PROMPT_REQUIRED_JSON 400 histories ∧
      generate_workflow_stream histories body freshId script =
        generate_workflow_stream histories (RequestBody.mk none body.conversation_id)
          freshId script := by
  have hm : promptMissing (some "") = true := by decide
  have h : generate_workflow_stream histories body freshId script =
      HandlerResult.badRequest PROMPT_REQUIRED_JSON 400 histories := by
    simp [generate_workflow_stream, hp, hm]
  refine ⟨h, ?_⟩
  rw [h]
  simp [generate_workflow_stream, promptMissing]

theorem empty_prompt_treated_as_missing_witness :
    (RequestBody.mk (some "") none).prompt = some "" ∧
      (generate_workflow_stream [] (RequestBody.mk (some "") none) "id-1"
          (StreamScript.mk [] true) =
        HandlerResult.badRequest PROMPT_REQUIRED_JSON 400 [] ∧
        generate_workflow_stream [] (RequestBody.mk (some "") none) "id-1"
            (StreamScript.mk [] true) =
          generate_workflow_stream []
            (RequestBody.mk none (RequestBody.mk (some "") none).conversation_id)
            "id-1" (StreamScript.mk [] true)) :=
  ⟨rfl, empty_prompt_treated_as_missing [] (RequestBody.mk (some "") none) "id-1"
    (StreamScript.mk [] true) rfl⟩

/-- C1: when fragment production fails at any point, the response body is the
cleaned fragments produced so far followed by exactly one final error fragment,
the literal JSON error payload, and the resulting store is the pre-stream store:
the conversation's history ends with the human message of this request and no
AI message was appended. -/
theorem relay_failure_yields_single_error_and_no_ai_message (histories : Store)
    (body : RequestBody) (freshId : String) (script : StreamScript) (p : String)
    (hp : body.prompt = some p) (hpne : p ≠ "") (hfail : script.ok = false) :
    generate_workflow_stream histories body freshId script =
      HandlerResult.streamed (usedId body freshId)
        (priorHistory histories (usedId body freshId) ++ [Message.mk Role.human p])
        (script.frags.map clean_chunk ++ [ERROR_STREAM_JSON])
        (appendHuman (seedHistories histories (usedId body freshId)) (usedId body freshId) p)
        200 ∧
      chatGet
        (appendHuman (seedHistories histories (usedId body freshId)) (usedId body freshId) p)
        (usedId body freshId) =
        some (priorHistory histories (usedId body freshId) ++ [Message.mk Role.human p]) := by
  constructor
  · rw [generate_unfold histories body freshId script p hp hpne,
      stream_response_fail _ _ _ hfail]
  · exact chatGet_after_human histories (usedId body freshId) p

theorem relay_failure_yields_single_error_and_no_ai_message_witness :
    (RequestBody.mk (some "hi") none).prompt = some "hi" ∧ ("hi" : String) ≠ "" ∧
      (StreamScript.mk ["x```json y", "z"] false).ok = false ∧
      (generate_workflow_stream [] (RequestBody.mk (some "hi") none) "id-1"
          (StreamScript.mk ["x```json y", "z"] false) =
        HandlerResult.streamed (usedId (RequestBody.mk (some "hi") none) "id-1")
          (priorHistory [] (usedId (RequestBody.mk (some "hi") none) "id-1") ++
            [Message.mk Role.human "hi"])
          ((StreamScript.mk ["x```json y", "z"] false).frags.map clean_chunk ++
            [ERROR_STREAM_JSON])
          (appendHuman
            (seedHistories [] (usedId (RequestBody.mk (some "hi") none) "id-1"))
            (usedId (RequestBody.mk (some "hi") none) "id-1") "hi")
          200 ∧
        chatGet
          (appendHuman
            (seedHistories [] (usedId (RequestBody.mk (some "hi") none) "id-1"))
            (usedId (RequestBody.mk (some "hi") none) "id-1") "hi")
          (usedId (RequestBody.mk (some "hi") none) "id-1") =
          some (priorHistory [] (usedId (RequestBody.mk (some "hi") none) "id-1") ++
            [Message.mk Role.human "hi"])) :=
  ⟨rfl, by decide, rfl,
    relay_failure_yields_single_error_and_no_ai_message [] (RequestBody.mk (some "hi") none)
      "id-1" (StreamScript.mk ["x```json y", "z"] false) "hi" rfl (by decide) rfl⟩

/-- C2: when the fragment sequence is produced to completion, the AI message
appended to the conversation history carries exactly the concatenation, in
arrival order, of the cleaned fragments that form the response body; when it
fails mid-stream, the store keeps its pre-stream value, so no AI message is
appended. -/
theorem relay_success_appends_joined_cleaned_fragments (histories : Store)
    (body : RequestBody) (freshId : String) (script : StreamScript) (p : String)
    (hp : body.prompt = some p) (hpne : p ≠ "") :
    (script.ok = true →
      generate_workflow_stream histories body freshId script =
        HandlerResult.streamed (usedId body freshId)
          (priorHistory histories (usedId body freshId) ++ [Message.mk Role.human p])
          (script.frags.map clean_chunk)
          (chatSet
            (appendHuman (seedHistories histories (usedId body freshId))
              (usedId body freshId) p)
            (usedId body freshId)
            ((priorHistory histories (usedId body freshId) ++ [Message.mk Role.human p]) ++
              [Message.mk Role.ai (String.join (script.frags.map clean_chunk))]))
          200) ∧
      (script.ok = false →
        (generate_workflow_stream histories body freshId script).store =
          appendHuman (seedHistories histories (usedId body freshId))
            (usedId body freshId) p) := by
  constructor
  · intro hok
    rw [generate_unfold histories body freshId script p hp hpne,
      stream_response_ok _ _ script _ hok
        (chatGet_after_human histories (usedId body freshId) p)]
  · intro hfail
    rw [generate_unfold histories body freshId script p hp hpne,
      stream_response_fail _ _ _ hfail]
    rfl

theorem relay_success_appends_joined_cleaned_fragments_witness :
    (RequestBody.mk (some "hi") none).prompt = some "hi" ∧ ("hi" : String) ≠ "" ∧
      (((StreamScript.mk ["```json a", "b```"] true).ok = true →
        generate_workflow_stream [] (RequestBody.mk (some "hi") none) "id-1"
            (StreamScript.mk ["```json a", "b```"] true) =
          HandlerResult.streamed (usedId (RequestBody.mk (some "hi") none) "id-1")
            (priorHistory [] (usedId (RequestBody.mk (some "hi") none) "id-1") ++
              [Message.mk Role.human "hi"])
            ((StreamScript.mk ["```json a", "b```"] true).frags.map clean_chunk)
            (chatSet
              (appendHuman
                (seedHistories [] (usedId (RequestBody.mk (some "hi") none) "id-1"))
                (usedId (RequestBody.mk (some "hi") none) "id-1") "hi")
              (usedId (RequestBody.mk (some "hi") none) "id-1")
              ((priorHistory [] (usedId (RequestBody.mk (some "hi") none) "id-1") ++
                  [Message.mk Role.human "hi"]) ++
                [Message.mk Role.ai (String.join
                  ((StreamScript.mk ["```json a", "b```"] true).frags.map clean_chunk))]))
            200) ∧
      ((StreamScript.mk ["```json a", "b```"] true).ok = false →
        (generate_workflow_stream [] (RequestBody.mk (some "hi") none) "id-1"
            (StreamScript.mk ["```json a", "b```"] true)).store =
          appendHuman
            (seedHistories [] (usedId (RequestBody.mk (some "hi") none) "id-1"))
            (usedId (RequestBody.mk (some "hi") none) "id-1") "hi")) :=
  ⟨rfl, by decide,
    relay_success_appends_joined_cleaned_fragments [] (RequestBody.mk (some "hi") none)
      "id-1" (StreamScript.mk ["```json a", "b```"] true) "hi" rfl (by decide)⟩

/-- C5: for a request whose conversation identifier is absent or unknown to the
store, the history handed to the model is a fresh one seeded with exactly one
system message (the fixed instruction prompt) followed by the new human
message, and the identifier carried in the response header is `usedId`, which
is the freshly generated one whenever the request carried none. -/
theorem fresh_conversation_seeded_with_system_message (histories : Store)
    (body : RequestBody) (freshId : String) (script : StreamScript) (p : String)
    (hp : body.prompt = some p) (hpne : p ≠ "")
    (hfresh : chatGet histories (usedId body freshId) = none) :
    generate_workflow_stream histories body freshId script =
      HandlerResult.streamed (usedId body freshId)
        ([system_message] ++ [Message.mk Role.human p])
        (stream_response (usedId body freshId)
          (appendHuman (seedHistories histories (usedId body freshId))
            (usedId body freshId) p) script).1
        (stream_response (usedId body freshId)
          (appendHuman (seedHistories histories (usedId body freshId))
            (usedId body freshId) p) script).2
        200 ∧
      (body.conversation_id = none → usedId body freshId = freshId) := by
  constructor
  · have hprior : priorHistory histories (usedId body freshId) = [system_message] := by
      simp [priorHistory, hfresh]
    rw [generate_unfold histories body freshId script p hp hpne, hprior]
  · intro hnone
    simp [usedId, hnone]

theorem fresh_conversation_seeded_with_system_message_witness :
    (RequestBody.mk (some "hi") none).prompt = some "hi" ∧ ("hi" : String) ≠ "" ∧
      chatGet [] (usedId (RequestBody.mk (some "hi") none) "id-1") = none ∧
      (generate_workflow_stream [] (RequestBody.mk (some "hi") none) "id-1"
          (StreamScript.mk ["ok"] true) =
        HandlerResult.streamed (usedId (RequestBody.mk (some "hi") none) "id-1")
          ([system_message] ++ [Message.mk Role.human "hi"])
          (stream_response (usedId (RequestBody.mk (some "hi") none) "id-1")
            (appendHuman
              (seedHistories [] (usedId (RequestBody.mk (some "hi") none) "id-1"))
              (usedId (RequestBody.mk (some "hi") none) "id-1") "hi")
            (StreamScript.mk ["ok"] true)).1
          (stream_response (usedId (RequestBody.mk (some "hi") none) "id-1")
            (appendHuman
              (seedHistories [] (usedId (RequestBody.mk (some "hi") none) "id-1"))
              (usedId (RequestBody.mk (some "hi") none) "id-1") "hi")
            (StreamScript.mk ["ok"] true)).2
          200 ∧
        ((RequestBody.mk (some "hi") none).conversation_id = none →
          usedId (RequestBody.mk (some "hi") none) "id-1" = "id-1")) :=
  ⟨rfl, by decide, rfl,
    fresh_conversation_seeded_with_system_message [] (RequestBody.mk (some "hi") none)
      "id-1" (StreamScript.mk ["ok"] true) "hi" rfl (by decide) rfl⟩

/-- C6: a request reusing a known conversation identifier hands the model the
prior history extended by one human message (not a replacement); in
particular, after a completed first request on a fresh identifier, a second
request on the same identifier sends system + first human + first AI + second
human, a history of length at least 3. -/
theorem known_conversation_history_extended (histories : Store) (body : RequestBody)
    (freshId : String) (script : StreamScript) (p cid : String) (h : List Message)
    (hp : body.prompt = some p) (hpne : p ≠ "") (hcid : body.conversation_id = some cid)
    (hcidne : cid ≠ "") (hknown : chatGet histories cid = some h) :
    (generate_workflow_stream histories body freshId script).sentMessages =
      h ++ [Message.mk Role.human p] ∧
    ∀ (p1 p2 : String) (frags : List String) (fresh1 fresh2 : String)
      (script2 : StreamScript), p1 ≠ "" → p2 ≠ "" →
      (generate_workflow_stream
          (generate_workflow_stream [] (RequestBody.mk (some p1) (some cid)) fresh1
            (StreamScript.mk frags true)).store
          (RequestBody.mk (some p2) (some cid)) fresh2 script2).sentMessages =
        [system_message, Message.mk Role.human p1,
          Message.mk Role.ai (String.join (frags.map clean_chunk)),
          Message.mk Role.human p2] ∧
      3 ≤ (generate_workflow_stream
          (generate_workflow_stream [] (RequestBody.mk (some p1) (some cid)) fresh1
            (StreamScript.mk frags true)).store
          (RequestBody.mk (some p2) (some cid)) fresh2 script2).sentMessages.length := by
  have hie : cid.isEmpty = false := isEmpty_false_of_ne cid hcidne
  have hus : usedId body freshId = cid := by simp [usedId, hcid, hie]
  constructor
  · rw [generate_unfold histories body freshId script p hp hpne, hus]
    simp [HandlerResult.sentMessages, priorHistory, hknown]
  · intro p1 p2 frags fresh1 fresh2 script2 hp1 hp2
    have hus1 : usedId (RequestBody.mk (some p1) (some cid)) fresh1 = cid := by
      simp [usedId, hie]
    have hus2 : usedId (RequestBody.mk (some p2) (some cid)) fresh2 = cid := by
      simp [usedId, hie]
    have h1 := generate_unfold [] (RequestBody.mk (some p1) (some cid)) fresh1
      (StreamScript.mk frags true) p1 rfl hp1
    rw [hus1] at h1
    have hmsgs1 := chatGet_after_human [] cid p1
    have hsr := stream_response_ok cid (appendHuman (seedHistories [] cid) cid p1)
      (StreamScript.mk frags true) _ rfl hmsgs1
    have hstore1 : (generate_workflow_stream [] (RequestBody.mk (some p1) (some cid)) fresh1
        (StreamScript.mk frags true)).store =
        chatSet (appendHuman (seedHistories [] cid) cid p1) cid
          ((priorHistory [] cid ++ [Message.mk Role.human p1]) ++
            [Message.mk Role.ai (String.join (frags.map clean_chunk))]) := by
      rw [h1, hsr]
      rfl
    have hget1 : chatGet (generate_workflow_stream [] (RequestBody.mk (some p1) (some cid))
        fresh1 (StreamScript.mk frags true)).store cid =
        some [system_message, Message.mk Role.human p1,
          Message.mk Role.ai (String.join (frags.map clean_chunk))] := by
      rw [hstore1, chatGet_chatSet_self]
      have hpr : priorHistory [] cid = [system_message] := by simp [priorHistory, chatGet]
      rw [hpr]
      rfl
    have h2 := generate_unfold
      (generate_workflow_stream [] (RequestBody.mk (some p1) (some cid)) fresh1
        (StreamScript.mk frags true)).store
      (RequestBody.mk (some p2) (some cid)) fresh2 script2 p2 rfl hp2
    rw [hus2] at h2
    rw [h2]
    constructor
    · simp [HandlerResult.sentMessages, priorHistory, hget1]
    · simp [HandlerResult.sentMessages, priorHistory, hget1]

theorem known_conversation_history_extended_witness :
    (RequestBody.mk (some "two") (some "c1")).prompt = some "two" ∧
      ("two" : String) ≠ "" ∧
      (RequestBody.mk (some "two") (some "c1")).conversation_id = some "c1" ∧
      ("c1" : String) ≠ "" ∧
      chatGet [("c1", [system_message])] "c1" = some [system_message] ∧
      (generate_workflow_stream [("c1", [system_message])]
          (RequestBody.mk (some "two") (some "c1")) "f0"
          (StreamScript.mk [] true)).sentMessages =
        [system_message] ++ [Message.mk Role.human "two"] ∧
      ((generate_workflow_stream
          (generate_workflow_stream [] (RequestBody.mk (some "one") (some "c1")) "f1"
            (StreamScript.mk ["r1"] true)).store
          (RequestBody.mk (some "two") (some "c1")) "f2"
          (StreamScript.mk [] true)).sentMessages =
        [system_message, Message.mk Role.human "one",
          Message.mk Role.ai (String.join (List.map clean_chunk ["r1"])),
          Message.mk Role.human "two"] ∧
      3 ≤ (generate_workflow_stream
          (generate_workflow_stream [] (RequestBody.mk (some "one") (some "c1")) "f1"
            (StreamScript.mk ["r1"] true)).store
          (RequestBody.mk (some "two") (some "c1")) "f2"
          (StreamScript.mk [] true)).sentMessages.length) :=
  ⟨rfl, by decide, rfl, by decide, rfl,
    (known_conversation_history_extended [("c1", [system_message])]
      (RequestBody.mk (some "two") (some "c1")) "f0" (StreamScript.mk [] true)
      "two" "c1" [system_message] rfl (by decide) rfl (by decide) rfl).1,
    (known_conversation_history_extended [("c1", [system_message])]
      (RequestBody.mk (some "two") (some "c1")) "f0" (StreamScript.mk [] true)
      "two" "c1" [system_message] rfl (by decide) rfl (by decide) rfl).2
      "one" "two" ["r1"] "f1" "f2" (StreamScript.mk [] true) (by decide) (by decide)⟩

/-- C8: every conversation history reachable from the empty store by any
sequence of requests begins with exactly one system message, the fixed
instruction prompt, and later messages never carry the system role; moreover
each single request only ever appends to an existing history. -/
theorem conversation_histories_begin_with_system_message :
    (∀ (events : List (RequestBody × String × StreamScript)) (cid : String)
        (h : List Message), chatGet (runRequests [] events) cid = some h →
        goodHistory h) ∧
    (∀ (histories : Store) (b : RequestBody) (f : String) (sc : StreamScript)
        (cid : String) (h : List Message), chatGet histories cid = some h →
        ∃ ext, chatGet (generate_workflow_stream histories b f sc).store cid =
          some (h ++ ext)) := by
  constructor
  · intro events cid h
    refine runRequests_good events [] ?_ cid h
    intro c hh hc
    simp [chatGet] at hc
  · intro histories b f sc cid h hget
    exact step_extends histories b f sc cid h hget

theorem conversation_histories_begin_with_system_message_witness :
    chatGet (runRequests []
        [(RequestBody.mk (some "hi") none, "id-1", StreamScript.mk ["ok"] true)])
        "id-1" =
      some [system_message, Message.mk Role.human "hi", Message.mk Role.ai "ok"] ∧
      goodHistory [system_message, Message.mk Role.human "hi", Message.mk Role.ai "ok"] ∧
      (chatGet [("c1", [system_message])] "c1" = some [system_message] ∧
        ∃ ext, chatGet (generate_workflow_stream [("c1", [system_message])]
            (RequestBody.mk (some "go") (some "c1")) "f1"
            (StreamScript.mk [] false)).store "c1" = some ([system_message] ++ ext)) :=
  ⟨rfl,
    (conversation_histories_begin_with_system_message).1
      [(RequestBody.mk (some "hi") none, "id-1", StreamScript.mk ["ok"] true)]
      "id-1" [system_message, Message.mk Role.human "hi", Message.mk Role.ai "ok"] rfl,
    rfl,
    (conversation_histories_begin_with_system_message).2
      [("c1", [system_message])] (RequestBody.mk (some "go") (some "c1")) "f1"
      (StreamScript.mk [] false) "c1" [system_message] rfl⟩

end AgentApp
